import Mathlib

/-!
Formal model of the EstantePDF client-side PDF library manager
(src/App.tsx, src/types.ts, src/services/pdfFactory.ts).

The repository's storage service (src/services/storage.ts) is imported by
App.tsx but absent from the sources; its operations are modelled from the
spec where marked. Browser primitives (File, object URLs, timers) and the
jsPDF library are modelled shallowly from their documented interfaces.

Byte buffers (ArrayBuffer) are modelled as lists of naturals; identifiers
produced by crypto.randomUUID and clock readings from Date.now enter the
model as explicit parameters.
-/

namespace EstantePDF

/-- ArrayBuffer contents: a list of bytes. -/
abbrev Buffer := List Nat

/-- The persisted document record, from src/types.ts (interface PDFDocument). -/
structure PDFDocument where
  id : String
  name : String
  description : Option String
  size : Nat
  type : String
  data : Buffer
  coverImage : Option String
  addedAt : Nat
deriving Repr, DecidableEq

/-- A browser File as seen by the upload path: display name, reported MIME
type, and content bytes. Per the File API, the `size` attribute is the byte
length of the content and `arrayBuffer()` resolves with exactly those bytes;
the reported MIME `type` is independent metadata (derived from the file
extension by the browser, possibly empty, not validated against content). -/
structure File where
  name : String
  type : String
  bytes : Buffer
deriving Repr, DecidableEq

/-- File.size: the byte length of the file content (File API). -/
def File.size (f : File) : Nat := f.bytes.length

/-- file.arrayBuffer(): resolves with the file content bytes (File API). -/
def File.arrayBuffer (f : File) : Buffer := f.bytes

/-- JavaScript String.prototype.replace with a plain-string pattern:
replaces only the first (leftmost) occurrence of `pat`, at the level of
character lists. If `pat` does not occur, the input is returned unchanged. -/
def replaceFirstList (pat repl : List Char) : List Char → List Char
  | [] => if pat.isPrefixOf ([] : List Char) then repl else []
  | c :: cs =>
    if pat.isPrefixOf (c :: cs) then repl ++ (c :: cs).drop pat.length
    else c :: replaceFirstList pat repl cs

/-- JavaScript s.replace(pat, repl) with a string pattern (first occurrence
only), as used in `file.name.replace(".pdf", "")`. -/
def jsReplaceFirst (s pat repl : String) : String :=
  ⟨replaceFirstList pat.data repl.data s.data⟩

/-- `pat` occurs in `l` starting at index `i`. -/
def occursAt (pat l : List Char) (i : Nat) : Prop :=
  pat.isPrefixOf (l.drop i) = true

instance (pat l : List Char) (i : Nat) : Decidable (occursAt pat l i) := by
  unfold occursAt; infer_instance

/-- One step of the JavaScript stable sort with comparator
(a, b) => b.addedAt - a.addedAt: insert a document into an
addedAt-descending list, before the first strictly older entry.
The inserted element comes earlier in the original array, so on ties it is
placed first, matching the stability guarantee of Array.prototype.sort. -/
def insertByAddedAt (d : PDFDocument) : List PDFDocument → List PDFDocument
  | [] => [d]
  | x :: xs =>
    if x.addedAt ≤ d.addedAt then d :: x :: xs else x :: insertByAddedAt d xs

/-- docs.sort((a, b) => b.addedAt - a.addedAt): stable sort by addedAt
descending (App.tsx, loadDocuments). -/
def sortByAddedAtDesc : List PDFDocument → List PDFDocument
  | [] => []
  | x :: xs => insertByAddedAt x (sortByAddedAtDesc xs)

/-- The store contents: the collection of persisted records. -/
abbrev StoreState := List PDFDocument

/-- Modelled from the spec: src/services/storage.ts is not in the sources.
`list()` returns every record currently persisted, in unspecified store
order (section 4.1); the model uses the collection itself. -/
def getDocuments (store : StoreState) : List PDFDocument := store

/-- Modelled from the spec: src/services/storage.ts is not in the sources.
`put(document)` inserts a new record or fully replaces an existing one with
the same id (section 4.1). -/
def saveDocument (store : StoreState) (d : PDFDocument) : StoreState :=
  if store.any (fun x => x.id = d.id) then
    store.map (fun x => if x.id = d.id then d else x)
  else
    store ++ [d]

/-- Modelled from the spec: src/services/storage.ts is not in the sources.
`delete(id)` removes the record if present; deleting an absent id is a
no-op success (section 4.1). -/
def deleteDocument (store : StoreState) (id : String) : StoreState :=
  store.filter (fun d => d.id ≠ id)

/-- loadDocuments (App.tsx): fetch all documents from the store and cache
them sorted by addedAt descending. -/
def loadDocuments (store : StoreState) : List PDFDocument :=
  sortByAddedAtDesc (getDocuments store)

/-- The view modes of the app (App.tsx, type ViewMode). -/
inductive ViewMode
  | library
  | create
deriving Repr, DecidableEq

/-- The Controller-owned reactive state of App.tsx relevant to the document
handlers (the dark-mode flag is omitted: no handler modelled here touches
it). -/
structure AppState where
  documents : List PDFDocument
  viewMode : ViewMode
  creatorTitle : String
  creatorContent : String
  creatorCover : Option String
  showUploadModal : Bool
  uploadFile : Option File
  uploadCover : Option String
  uploadName : String
  isProcessing : Bool
deriving Repr, DecidableEq

/-- Observable effects emitted by the handlers: user alerts, Factory
invocations, and Store operations, in program order. -/
inductive Effect
  | alertMsg (msg : String)
  | factoryCall (title content : String)
  | storeSave (doc : PDFDocument)
  | storeDelete (id : String)
  | storeList
deriving Repr, DecidableEq

/-- A JavaScript WhiteSpace or LineTerminator code point, the set removed
by String.prototype.trim (ECMA-262): TAB, VT, FF, SP, NBSP, BOM, LF, CR,
LS, PS (further Unicode Zs space separators are omitted from the model). -/
def jsWhitespaceChar (c : Char) : Bool :=
  c == ' ' || c == '\t' || c == '\n' || c == '\r' || c == '\x0b' ||
    c == '\x0c' || c == '\u00A0' || c == '\uFEFF' || c == '\u2028' ||
    c == '\u2029'

/-- JavaScript String.prototype.trim: strip leading and trailing
whitespace. -/
def jsTrim (s : String) : String :=
  ⟨((s.data.dropWhile jsWhitespaceChar).reverse.dropWhile
      jsWhitespaceChar).reverse⟩

/-- JavaScript `cover || undefined`: null and the empty string are falsy. -/
def coverOrNone (cover : Option String) : Option String :=
  match cover with
  | none => none
  | some c => if c = "" then none else some c

/-- confirmUpload (App.tsx): guard on a chosen file, build the record from
the file and form state, persist it, re-list, and reset the upload form.
`newId` stands for crypto.randomUUID() and `now` for Date.now(). The
JavaScript `uploadName || uploadFile.name.replace(".pdf", "")` falls back
exactly when uploadName is the empty string. -/
def confirmUpload (newId : String) (now : Nat) (s : AppState)
    (store : StoreState) : AppState × StoreState × List Effect :=
  match s.uploadFile with
  | none => (s, store, [])
  | some file =>
    let newDoc : PDFDocument :=
      { id := newId
        name := if s.uploadName = "" then jsReplaceFirst file.name ".pdf" ""
                else s.uploadName
        description := none
        size := file.size
        type := file.type
        data := file.arrayBuffer
        coverImage := coverOrNone s.uploadCover
        addedAt := now }
    let store2 := saveDocument store newDoc
    let s2 : AppState :=
      { s with
        documents := loadDocuments store2
        uploadFile := none
        uploadCover := none
        uploadName := ""
        showUploadModal := false
        isProcessing := false }
    (s2, store2, [Effect.storeSave newDoc, Effect.storeList])

/-- handleFileSelect (App.tsx): record the chosen file; default the display
name from the file name with the first ".pdf" removed, only when no name
has been typed yet. -/
def handleFileSelect (file : File) (s : AppState) : AppState :=
  { s with
    uploadFile := some file
    uploadName := if s.uploadName = "" then jsReplaceFirst file.name ".pdf" ""
                  else s.uploadName }

/-- handleCreatePDF (App.tsx): validate trimmed title and content, call the
Factory, persist the generated document, re-list, clear the creator form
and return to the library; a Factory error is caught and reported. The
Factory is passed as a function returning Except to model
PDFFactory.createPDF possibly throwing. -/
def handleCreatePDF (factory : String → String → Except String Buffer)
    (newId : String) (now : Nat) (s : AppState) (store : StoreState) :
    AppState × StoreState × List Effect :=
  if jsTrim s.creatorTitle = "" ∨ jsTrim s.creatorContent = "" then
    (s, store, [Effect.alertMsg "Por favor, adicione um título e conteúdo."])
  else
    match factory s.creatorTitle s.creatorContent with
    | Except.error _ =>
      (s, store,
        [Effect.factoryCall s.creatorTitle s.creatorContent,
         Effect.alertMsg "Erro ao criar PDF. Verifique se o texto não contém caracteres especiais não suportados."])
    | Except.ok pdfBuffer =>
      let newDoc : PDFDocument :=
        { id := newId
          name := s.creatorTitle
          description := some "Gerado internamente"
          size := pdfBuffer.length
          type := "application/pdf"
          data := pdfBuffer
          coverImage := coverOrNone s.creatorCover
          addedAt := now }
      let store2 := saveDocument store newDoc
      let s2 : AppState :=
        { s with
          documents := loadDocuments store2
          creatorTitle := ""
          creatorContent := ""
          creatorCover := none
          viewMode := ViewMode.library }
      (s2, store2,
        [Effect.factoryCall s.creatorTitle s.creatorContent,
         Effect.storeSave newDoc, Effect.storeList,
         Effect.alertMsg "PDF criado com sucesso!"])

/-- deleteDoc (App.tsx): after user confirmation, delete from the store and
re-list; `confirmed` is the result of the confirm() dialog. -/
def deleteDoc (confirmed : Bool) (id : String) (s : AppState)
    (store : StoreState) : AppState × StoreState × List Effect :=
  if confirmed then
    let store2 := deleteDocument store id
    ({ s with documents := loadDocuments store2 }, store2,
      [Effect.storeDelete id, Effect.storeList])
  else
    (s, store, [])

/-- One placed text block of a generated PDF: the wrapped lines put on the
page by a doc.text call, with the position and font in force. Part of the
shallow jsPDF model used by src/services/pdfFactory.ts. -/
structure TextBlock where
  lines : List String
  x : Nat
  y : Nat
  fontName : String
  fontStyle : String
  fontSize : Nat
deriving Repr, DecidableEq

/-- The content of the buffer returned by doc.output("arraybuffer"):
document metadata properties, the creation timestamp jsPDF embeds from the
clock at generation time, the trailer file identifier (the /ID entry)
jsPDF generates from Math.random at document construction, and the placed
text blocks. The byte-level PDF serialization of the jsPDF library is
abstracted to this structure; the creationDate field is the embedded
generation timestamp metadata and the fileId field the embedded
PRNG-derived identifier. -/
structure PDFOutput where
  creationDate : Nat
  fileId : Nat
  docTitle : String
  docCreator : String
  blocks : List TextBlock
deriving Repr, DecidableEq

/-- createPDF (src/services/pdfFactory.ts): build an A4 document with the
title at size 24 bold from y = 25 and the content at size 12 normal below
it, both word-wrapped to 170 mm. `split` stands for the library routine
doc.splitTextToSize (a fixed deterministic function of the text and the
width for a fixed font), `now` for the clock reading jsPDF embeds as the
creation date, and `fileId` for the trailer file identifier jsPDF derives
from a Math.random draw when the document is constructed; the source pins
neither (it calls neither setCreationDate nor setFileId), so both vary
between invocations. -/
def createPDF (split : String → Nat → List String) (now fileId : Nat)
    (title content : String) : PDFOutput :=
  let splitTitle := split title 170
  let titleHeight := splitTitle.length * 10 + 15
  let splitContent := split content 170
  { creationDate := now
    fileId := fileId
    docTitle := title
    docCreator := "Static PDF Manager"
    blocks :=
      [ { lines := splitTitle, x := 20, y := 25,
          fontName := "helvetica", fontStyle := "bold", fontSize := 24 },
        { lines := splitContent, x := 20, y := 25 + titleHeight,
          fontName := "helvetica", fontStyle := "normal", fontSize := 12 } ] }

/-- Two generated buffers are equal except for the embedded generation
timestamp metadata: every other embedded value, the trailer file
identifier included, agrees. -/
def equalExceptCreationDate (o1 o2 : PDFOutput) : Prop :=
  o1.fileId = o2.fileId ∧ o1.docTitle = o2.docTitle ∧
    o1.docCreator = o2.docCreator ∧ o1.blocks = o2.blocks

/-- Two generated buffers agree in everything except the two volatile
embedded values: the creation timestamp and the PRNG-derived trailer file
identifier. -/
def equalExceptVolatileMetadata (o1 o2 : PDFOutput) : Prop :=
  o1.docTitle = o2.docTitle ∧ o1.docCreator = o2.docCreator ∧
    o1.blocks = o2.blocks

/-- Observable effects of openDoc (App.tsx): object-URL creation, the
window.open call, the popup-blocked alert, and timer scheduling. A
scheduleRevoke effect is a one-shot setTimeout whose callback revokes the
given URL after the given delay in milliseconds; no other release
mechanism (immediate revocation, or a cleanup registered to run on
navigation or unload) appears in the source, so the effect language has
only this release form. -/
inductive OpenEffect
  | createURL (data : Buffer) (url : String)
  | openWindow (url : String)
  | popupAlert (msg : String)
  | scheduleRevoke (delayMs : Nat) (url : String)
deriving Repr, DecidableEq

/-- openDoc (App.tsx): materialize a blob URL for the stored bytes, open it
in a new tab, alert if the popup was blocked, and schedule revocation of
the URL after 60000 ms with a fire-and-forget setTimeout. `url` stands for
the value returned by URL.createObjectURL and `popupAllowed` for whether
window.open returned a window. -/
def openDoc (doc : PDFDocument) (url : String) (popupAllowed : Bool) :
    List OpenEffect :=
  [OpenEffect.createURL doc.data url, OpenEffect.openWindow url]
    ++ (if popupAllowed then []
        else [OpenEffect.popupAlert
          "Por favor, permita popups para este site para visualizar o PDF."])
    ++ [OpenEffect.scheduleRevoke 60000 url]

/-- Whether the program ever revokes `url`, when the page is torn down by a
navigation `navAt` milliseconds after openDoc ran: a one-shot timer
scheduled by the page fires only if its delay elapses before the page is
torn down, and pending timers are discarded at navigation. -/
def revokedByProgram (trace : List OpenEffect) (navAt : Nat)
    (url : String) : Bool :=
  trace.any fun e =>
    match e with
    | OpenEffect.scheduleRevoke d u => u = url && decide (d ≤ navAt)
    | _ => false

/-- The scheduleRevoke effects of a trace. -/
def revokeTimers (trace : List OpenEffect) : List OpenEffect :=
  trace.filter fun e =>
    match e with
    | OpenEffect.scheduleRevoke _ _ => true
    | _ => false

/-! ## Helper lemmas about the cached-view sort -/

/-- Inserting into the cached view permutes consing. -/
theorem insertByAddedAt_perm (d : PDFDocument) (l : List PDFDocument) :
    (insertByAddedAt d l).Perm (d :: l) := by
  induction l with
  | nil => exact List.Perm.refl _
  | cons x xs ih =>
    simp only [insertByAddedAt]
    split
    · exact List.Perm.refl _
    · exact (ih.cons x).trans (List.Perm.swap d x xs)

/-- The cached-view sort permutes its input. -/
theorem sortByAddedAtDesc_perm (l : List PDFDocument) :
    (sortByAddedAtDesc l).Perm l := by
  induction l with
  | nil => exact List.Perm.refl _
  | cons x xs ih =>
    exact (insertByAddedAt_perm x (sortByAddedAtDesc xs)).trans (ih.cons x)

/-- Insertion preserves the addedAt-descending pairwise order. -/
theorem insertByAddedAt_pairwise (d : PDFDocument) (l : List PDFDocument)
    (h : l.Pairwise fun a b => b.addedAt ≤ a.addedAt) :
    (insertByAddedAt d l).Pairwise fun a b => b.addedAt ≤ a.addedAt := by
  induction l with
  | nil => simp [insertByAddedAt]
  | cons x xs ih =>
    rcases List.pairwise_cons.mp h with ⟨hx, hxs⟩
    simp only [insertByAddedAt]
    split
    · rename_i hle
      refine List.pairwise_cons.mpr ⟨?_, h⟩
      intro y hy
      rcases List.mem_cons.mp hy with rfl | hy
      · exact hle
      · exact le_trans (hx y hy) hle
    · rename_i hgt
      refine List.pairwise_cons.mpr ⟨?_, ih hxs⟩
      intro y hy
      have hy2 := (insertByAddedAt_perm d xs).mem_iff.mp hy
      rcases List.mem_cons.mp hy2 with rfl | hy2
      · exact le_of_not_le hgt
      · exact hx y hy2

/-- The cached view is pairwise addedAt-descending. -/
theorem sortByAddedAtDesc_pairwise (l : List PDFDocument) :
    (sortByAddedAtDesc l).Pairwise fun a b => b.addedAt ≤ a.addedAt := by
  induction l with
  | nil => simp [sortByAddedAtDesc]
  | cons x xs ih => exact insertByAddedAt_pairwise x _ ih

/-- Claim C2: after every load of the document list, the Controller's
cached view is a permutation of the store contents sorted by addedAt
descending; for documents created at increasing timestamps t1 < t2 < t3,
the cached view presents them in order t3, t2, t1, whatever order the
store returned them in. -/
theorem loadDocuments_recency_order :
    (∀ store : StoreState,
        (loadDocuments store).Perm (getDocuments store) ∧
          ((loadDocuments store).Pairwise fun a b =>
            b.addedAt ≤ a.addedAt)) ∧
      ∀ (store : StoreState) (d1 d2 d3 : PDFDocument),
        d1.addedAt < d2.addedAt → d2.addedAt < d3.addedAt →
        store.Perm [d1, d2, d3] → loadDocuments store = [d3, d2, d1] := by
  refine ⟨fun store =>
    ⟨sortByAddedAtDesc_perm store, sortByAddedAtDesc_pairwise store⟩, ?_⟩
  intro store d1 d2 d3 h12 h23 hperm
  have hpair := sortByAddedAtDesc_pairwise store
  have hmem : ∀ a ∈ loadDocuments store, a = d1 ∨ a = d2 ∨ a = d3 := by
    intro a ha
    have := hperm.mem_iff.mp ((sortByAddedAtDesc_perm store).mem_iff.mp ha)
    simpa using this
  have hsorted1 :
      (loadDocuments store).Pairwise
        fun a b => b.addedAt < a.addedAt ∨ a = b := by
    refine List.Pairwise.imp_of_mem ?_ hpair
    intro a b ha hb hab
    rcases hmem a ha with rfl | rfl | rfl <;>
      rcases hmem b hb with rfl | rfl | rfl
    · exact Or.inr rfl
    · exact absurd hab (by omega)
    · exact absurd hab (by omega)
    · exact Or.inl h12
    · exact Or.inr rfl
    · exact absurd hab (by omega)
    · exact Or.inl (lt_trans h12 h23)
    · exact Or.inl h23
    · exact Or.inr rfl
  have hsorted2 :
      ([d3, d2, d1] : List PDFDocument).Pairwise
        fun a b => b.addedAt < a.addedAt ∨ a = b := by
    refine List.pairwise_cons.mpr ⟨?_, List.pairwise_cons.mpr ⟨?_, ?_⟩⟩
    · intro y hy
      rcases List.mem_cons.mp hy with rfl | hy
      · exact Or.inl h23
      · rcases List.mem_singleton.mp hy with rfl
        exact Or.inl (lt_trans h12 h23)
    · intro y hy
      rcases List.mem_singleton.mp hy with rfl
      exact Or.inl h12
    · exact List.pairwise_singleton _ _
  have hperm2 : (loadDocuments store).Perm [d3, d2, d1] := by
    refine ((sortByAddedAtDesc_perm store).trans hperm).trans ?_
    have := List.reverse_perm ([d1, d2, d3] : List PDFDocument)
    simpa using this.symm
  haveI : IsAntisymm PDFDocument fun a b => b.addedAt < a.addedAt ∨ a = b :=
    ⟨by
      intro a b hab hba
      rcases hab with h1 | h1
      · rcases hba with h2 | h2
        · omega
        · exact h2.symm
      · exact h1⟩
  exact List.eq_of_perm_of_sorted hperm2 hsorted1 hsorted2

/-- Concrete instance of C2: three documents stored in creation order are
presented newest first. -/
theorem loadDocuments_recency_order_witness :
    ((loadDocuments
        [{ id := "a", name := "A", description := none, size := 0,
           type := "application/pdf", data := [], coverImage := none,
           addedAt := 1 },
         { id := "b", name := "B", description := none, size := 0,
           type := "application/pdf", data := [], coverImage := none,
           addedAt := 2 },
         { id := "c", name := "C", description := none, size := 0,
           type := "application/pdf", data := [], coverImage := none,
           addedAt := 3 }]).Pairwise fun a b => b.addedAt ≤ a.addedAt) ∧
    loadDocuments
        [{ id := "a", name := "A", description := none, size := 0,
           type := "application/pdf", data := [], coverImage := none,
           addedAt := 1 },
         { id := "b", name := "B", description := none, size := 0,
           type := "application/pdf", data := [], coverImage := none,
           addedAt := 2 },
         { id := "c", name := "C", description := none, size := 0,
           type := "application/pdf", data := [], coverImage := none,
           addedAt := 3 }] =
      [{ id := "c", name := "C", description := none, size := 0,
         type := "application/pdf", data := [], coverImage := none,
         addedAt := 3 },
       { id := "b", name := "B", description := none, size := 0,
         type := "application/pdf", data := [], coverImage := none,
         addedAt := 2 },
       { id := "a", name := "A", description := none, size := 0,
         type := "application/pdf", data := [], coverImage := none,
         addedAt := 1 }] :=
  ⟨(loadDocuments_recency_order.1
      [{ id := "a", name := "A", description := none, size := 0,
         type := "application/pdf", data := [], coverImage := none,
         addedAt := 1 },
       { id := "b", name := "B", description := none, size := 0,
         type := "application/pdf", data := [], coverImage := none,
         addedAt := 2 },
       { id := "c", name := "C", description := none, size := 0,
         type := "application/pdf", data := [], coverImage := none,
         addedAt := 3 }]).2,
    loadDocuments_recency_order.2
      [{ id := "a", name := "A", description := none, size := 0,
         type := "application/pdf", data := [], coverImage := none,
         addedAt := 1 },
       { id := "b", name := "B", description := none, size := 0,
         type := "application/pdf", data := [], coverImage := none,
         addedAt := 2 },
       { id := "c", name := "C", description := none, size := 0,
         type := "application/pdf", data := [], coverImage := none,
         addedAt := 3 }]
      { id := "a", name := "A", description := none, size := 0,
        type := "application/pdf", data := [], coverImage := none,
        addedAt := 1 }
      { id := "b", name := "B", description := none, size := 0,
        type := "application/pdf", data := [], coverImage := none,
        addedAt := 2 }
      { id := "c", name := "C", description := none, size := 0,
        type := "application/pdf", data := [], coverImage := none,
        addedAt := 3 }
      (by decide) (by decide) (List.Perm.refl _)⟩

/-! ## Helper lemmas about the first-occurrence replace -/

/-- replaceFirstList replaces exactly the first occurrence of the pattern:
if the pattern occurs at index i and at no earlier index, the result is the
input with the i-th through (i + length - 1)-th characters replaced. -/
theorem replaceFirstList_first_occurrence (pat repl : List Char)
    (l : List Char) (i : Nat) (hocc : occursAt pat l i)
    (hfirst : ∀ j < i, ¬ occursAt pat l j) :
    replaceFirstList pat repl l =
      l.take i ++ repl ++ l.drop (i + pat.length) := by
  induction l generalizing i with
  | nil =>
    cases pat with
    | nil => simp [replaceFirstList, List.isPrefixOf]
    | cons p ps => simp [occursAt, List.isPrefixOf] at hocc
  | cons c cs ih =>
    cases i with
    | zero =>
      unfold occursAt at hocc
      simp only [List.drop_zero] at hocc
      simp [replaceFirstList, hocc]
    | succ j =>
      have hnot0 : ¬ pat.isPrefixOf (c :: cs) = true := by
        have := hfirst 0 (Nat.succ_pos j)
        simpa [occursAt] using this
      have hocc2 : occursAt pat cs j := by
        simpa [occursAt, List.drop_succ_cons] using hocc
      have hfirst2 : ∀ k < j, ¬ occursAt pat cs k := by
        intro k hk
        have := hfirst (k + 1) (Nat.succ_lt_succ hk)
        simpa [occursAt, List.drop_succ_cons] using this
      have hidx : j + 1 + pat.length = (j + pat.length) + 1 := by omega
      simp only [replaceFirstList, if_neg hnot0, ih j hocc2 hfirst2,
        List.take_succ_cons, hidx, List.drop_succ_cons, List.cons_append]

/-- Claim C10: when the user-supplied display name is empty at upload time,
the stored document's name is the selected file's name with only the first
occurrence of ".pdf" removed; this holds for every file name, on the direct
path through confirmUpload and on the path where handleFileSelect defaulted
the name first. -/
theorem upload_default_name_first_pdf_removed (newId : String) (now : Nat)
    (s : AppState) (store : StoreState) (f : File)
    (hfile : s.uploadFile = some f) (hname : s.uploadName = "") (i : Nat)
    (hocc : occursAt ".pdf".data f.name.data i)
    (hfirst : ∀ j < i, ¬ occursAt ".pdf".data f.name.data j) :
    (∃ d, Effect.storeSave d ∈ (confirmUpload newId now s store).2.2 ∧
        d.name.data = f.name.data.take i ++ f.name.data.drop (i + 4)) ∧
      ∀ d,
        Effect.storeSave d ∈
            (confirmUpload newId now (handleFileSelect f s) store).2.2 →
          d.name.data = f.name.data.take i ++ f.name.data.drop (i + 4) := by
  have hrepl : (jsReplaceFirst f.name ".pdf" "").data =
      f.name.data.take i ++ f.name.data.drop (i + 4) := by
    have h4 : ".pdf".data.length = 4 := rfl
    have := replaceFirstList_first_occurrence ".pdf".data "".data
      f.name.data i hocc hfirst
    simp only [jsReplaceFirst, this, h4]
    simp
  have hsel : (if s.uploadName = "" then jsReplaceFirst f.name ".pdf" ""
      else s.uploadName) = jsReplaceFirst f.name ".pdf" "" := by
    simp [hname]
  constructor
  · refine
      ⟨{ id := newId,
         name := (if s.uploadName = "" then jsReplaceFirst f.name ".pdf" ""
           else s.uploadName),
         description := none, size := f.size, type := f.type,
         data := f.arrayBuffer, coverImage := coverOrNone s.uploadCover,
         addedAt := now }, ?_, ?_⟩
    · simp only [confirmUpload, hfile]
      exact List.mem_cons_self _ _
    · simp only [hsel]
      exact hrepl
  · intro d hd
    simp only [confirmUpload, handleFileSelect, hfile] at hd
    simp only [List.mem_cons, List.not_mem_nil, or_false,
      Effect.storeSave.injEq, reduceCtorEq] at hd
    subst hd
    simp only [hsel, ite_self]
    exact hrepl

/-- Concrete instance of C10: the file name "my.pdf.backup.pdf" contains
".pdf" before the final extension; the stored name removes only the first
occurrence, giving "my.backup.pdf". -/
theorem upload_default_name_first_pdf_removed_witness :
    (∃ d, Effect.storeSave d ∈
        (confirmUpload "id1" 5
          { documents := [], viewMode := ViewMode.library,
            creatorTitle := "", creatorContent := "", creatorCover := none,
            showUploadModal := true,
            uploadFile := some { name := "my.pdf.backup.pdf",
                                 type := "application/pdf", bytes := [1, 2] },
            uploadCover := none, uploadName := "", isProcessing := false }
          []).2.2 ∧
        d.name.data = "my.pdf.backup.pdf".data.take 2 ++
          "my.pdf.backup.pdf".data.drop 6) ∧
      ∀ d, Effect.storeSave d ∈
          (confirmUpload "id1" 5
            (handleFileSelect
              { name := "my.pdf.backup.pdf", type := "application/pdf",
                bytes := [1, 2] }
              { documents := [], viewMode := ViewMode.library,
                creatorTitle := "", creatorContent := "",
                creatorCover := none, showUploadModal := true,
                uploadFile := some { name := "my.pdf.backup.pdf",
                                     type := "application/pdf",
                                     bytes := [1, 2] },
                uploadCover := none, uploadName := "",
                isProcessing := false })
            []).2.2 →
        d.name.data = "my.pdf.backup.pdf".data.take 2 ++
          "my.pdf.backup.pdf".data.drop 6 :=
  upload_default_name_first_pdf_removed "id1" 5
    { documents := [], viewMode := ViewMode.library, creatorTitle := "",
      creatorContent := "", creatorCover := none, showUploadModal := true,
      uploadFile := some { name := "my.pdf.backup.pdf",
                           type := "application/pdf", bytes := [1, 2] },
      uploadCover := none, uploadName := "", isProcessing := false }
    []
    { name := "my.pdf.backup.pdf", type := "application/pdf",
      bytes := [1, 2] }
    rfl rfl 2 (by decide) (by decide)

/-! ## Size invariant (C1) -/

/-- Claim C1: every document record the Controller hands to the store, via
upload in confirmUpload or via creation in handleCreatePDF, has its size
field equal to the byte length of its data buffer. -/
theorem controller_size_invariant :
    (∀ (newId : String) (now : Nat) (s : AppState) (store : StoreState)
        (d : PDFDocument),
        Effect.storeSave d ∈ (confirmUpload newId now s store).2.2 →
          d.size = d.data.length) ∧
      ∀ (factory : String → String → Except String Buffer) (newId : String)
        (now : Nat) (s : AppState) (store : StoreState) (d : PDFDocument),
        Effect.storeSave d ∈ (handleCreatePDF factory newId now s store).2.2 →
          d.size = d.data.length := by
  constructor
  · intro newId now s store d hd
    match hf : s.uploadFile with
    | none => simp [confirmUpload, hf] at hd
    | some f =>
      simp only [confirmUpload, hf, List.mem_cons, List.not_mem_nil,
        or_false, Effect.storeSave.injEq, reduceCtorEq] at hd
      subst hd
      rfl
  · intro factory newId now s store d hd
    by_cases hv : jsTrim s.creatorTitle = "" ∨ jsTrim s.creatorContent = ""
    · simp [handleCreatePDF, hv] at hd
    · match hfac : factory s.creatorTitle s.creatorContent with
      | Except.error e => simp [handleCreatePDF, hv, hfac] at hd
      | Except.ok buf =>
        simp only [handleCreatePDF, hv, if_false, hfac, List.mem_cons,
          List.not_mem_nil, or_false, Effect.storeSave.injEq,
          reduceCtorEq, false_or, if_neg] at hd
        subst hd
        rfl

/-- Concrete instance of C1: a two-byte upload is stored with size 2, and a
generated three-byte document with size 3. -/
theorem controller_size_invariant_witness :
    ((({ id := "u1", name := "N", description := none, size := 2,
         type := "application/pdf", data := [1, 2], coverImage := none,
         addedAt := 9 } : PDFDocument).size = 2) ∧
      (({ id := "c1", name := "T", description := some "Gerado internamente",
          size := 3, type := "application/pdf", data := [4, 5, 6],
          coverImage := none,
          addedAt := 9 } : PDFDocument).size = 3)) ∧
      (({ id := "u1", name := "N", description := none, size := 2,
          type := "application/pdf", data := [1, 2], coverImage := none,
          addedAt := 9 } : PDFDocument).size =
          ([1, 2] : Buffer).length ∧
        ({ id := "c1", name := "T", description := some "Gerado internamente",
           size := 3, type := "application/pdf", data := [4, 5, 6],
           coverImage := none,
           addedAt := 9 } : PDFDocument).size =
          ([4, 5, 6] : Buffer).length) :=
  ⟨⟨rfl, rfl⟩,
    controller_size_invariant.1 "u1" 9
      { documents := [], viewMode := ViewMode.library, creatorTitle := "",
        creatorContent := "", creatorCover := none, showUploadModal := true,
        uploadFile := some { name := "N.pdf", type := "application/pdf",
                             bytes := [1, 2] },
        uploadCover := none, uploadName := "N", isProcessing := false }
      [] _ (by decide),
    controller_size_invariant.2 (fun _ _ => Except.ok [4, 5, 6]) "c1" 9
      { documents := [], viewMode := ViewMode.create, creatorTitle := "T",
        creatorContent := "B", creatorCover := none,
        showUploadModal := false, uploadFile := none, uploadCover := none,
        uploadName := "", isProcessing := false }
      [] _ (by decide)⟩

/-! ## MIME type of stored records (C3) -/

/-- Claim C3 counterexample: the upload path copies the file's reported
MIME type into the record instead of the constant "application/pdf". A
chosen file reporting "text/plain" (the accept attribute of the file input
is a hint, not a validation) is stored with type "text/plain". -/
theorem stored_mime_not_constant_counterexample :
    ∃ d, Effect.storeSave d ∈
        (confirmUpload "id2" 3
          { documents := [], viewMode := ViewMode.library,
            creatorTitle := "", creatorContent := "", creatorCover := none,
            showUploadModal := true,
            uploadFile := some { name := "notes.txt", type := "text/plain",
                                 bytes := [55] },
            uploadCover := none, uploadName := "Doc",
            isProcessing := false }
          []).2.2 ∧
      d.type ≠ "application/pdf" :=
  ⟨{ id := "id2", name := "Doc", description := none, size := 1,
     type := "text/plain", data := [55], coverImage := none, addedAt := 3 },
    by decide, by decide⟩

/-- Claim C3 amended: on the create path the stored record's type is the
constant "application/pdf"; on the upload path it equals the selected
file's reported MIME type, which need not be "application/pdf". -/
theorem stored_mime_types (factory : String → String → Except String Buffer)
    (newId : String) (now : Nat) (s : AppState) (store : StoreState)
    (f : File) (hfile : s.uploadFile = some f) :
    (∀ d, Effect.storeSave d ∈ (handleCreatePDF factory newId now s store).2.2 →
        d.type = "application/pdf") ∧
      ∀ d, Effect.storeSave d ∈ (confirmUpload newId now s store).2.2 →
        d.type = f.type := by
  constructor
  · intro d hd
    by_cases hv : jsTrim s.creatorTitle = "" ∨ jsTrim s.creatorContent = ""
    · simp [handleCreatePDF, hv] at hd
    · match hfac : factory s.creatorTitle s.creatorContent with
      | Except.error e => simp [handleCreatePDF, hv, hfac] at hd
      | Except.ok buf =>
        simp only [handleCreatePDF, hv, if_false, hfac, List.mem_cons,
          List.not_mem_nil, or_false, Effect.storeSave.injEq,
          reduceCtorEq, false_or, if_neg] at hd
        subst hd
        rfl
  · intro d hd
    simp only [confirmUpload, hfile, List.mem_cons, List.not_mem_nil,
      or_false, Effect.storeSave.injEq, reduceCtorEq] at hd
    subst hd
    rfl

/-- Concrete instance of the amended C3: a generated document is stored as
"application/pdf" while an uploaded "text/plain" file keeps "text/plain". -/
theorem stored_mime_types_witness :
    (({ id := "id2", name := "T", description := some "Gerado internamente",
        size := 1, type := "application/pdf", data := [9],
        coverImage := none, addedAt := 3 } : PDFDocument).type =
        "application/pdf") ∧
      (({ id := "id2", name := "Doc", description := none, size := 1,
          type := "text/plain", data := [55], coverImage := none,
          addedAt := 3 } : PDFDocument).type = "text/plain") :=
  ⟨(stored_mime_types (fun _ _ => Except.ok [9]) "id2" 3
      { documents := [], viewMode := ViewMode.create, creatorTitle := "T",
        creatorContent := "B", creatorCover := none,
        showUploadModal := false,
        uploadFile := some { name := "notes.txt", type := "text/plain",
                             bytes := [55] },
        uploadCover := none, uploadName := "Doc", isProcessing := false }
      []
      { name := "notes.txt", type := "text/plain", bytes := [55] }
      rfl).1 _ (by decide),
    (stored_mime_types (fun _ _ => Except.ok [9]) "id2" 3
      { documents := [], viewMode := ViewMode.create, creatorTitle := "T",
        creatorContent := "B", creatorCover := none,
        showUploadModal := false,
        uploadFile := some { name := "notes.txt", type := "text/plain",
                             bytes := [55] },
        uploadCover := none, uploadName := "Doc", isProcessing := false }
      []
      { name := "notes.txt", type := "text/plain", bytes := [55] }
      rfl).2 _ (by decide)⟩

/-! ## Resync after every store mutation (C4) -/

/-- Claim C4: after every successful store mutation issued by the
Controller (the save in confirmUpload, the save in handleCreatePDF, the
delete in deleteDoc), the Controller re-issues a full list, and its cached
view equals a fresh load of the post-mutation store rather than an
incremental patch of the old cache. -/
theorem resync_after_mutation :
    (∀ (newId : String) (now : Nat) (s : AppState) (store : StoreState)
        (f : File), s.uploadFile = some f →
        ∃ d, (confirmUpload newId now s store).2.2 =
            [Effect.storeSave d, Effect.storeList] ∧
          (confirmUpload newId now s store).1.documents =
            loadDocuments (confirmUpload newId now s store).2.1) ∧
      (∀ (factory : String → String → Except String Buffer)
          (newId : String) (now : Nat) (s : AppState) (store : StoreState)
          (buf : Buffer),
          jsTrim s.creatorTitle ≠ "" → jsTrim s.creatorContent ≠ "" →
          factory s.creatorTitle s.creatorContent = Except.ok buf →
          ∃ d, (handleCreatePDF factory newId now s store).2.2 =
              [Effect.factoryCall s.creatorTitle s.creatorContent,
               Effect.storeSave d, Effect.storeList,
               Effect.alertMsg "PDF criado com sucesso!"] ∧
            (handleCreatePDF factory newId now s store).1.documents =
              loadDocuments (handleCreatePDF factory newId now s store).2.1) ∧
      ∀ (id : String) (s : AppState) (store : StoreState),
        (deleteDoc true id s store).2.2 =
            [Effect.storeDelete id, Effect.storeList] ∧
          (deleteDoc true id s store).1.documents =
            loadDocuments (deleteDoc true id s store).2.1 := by
  refine ⟨?_, ?_, ?_⟩
  · intro newId now s store f hfile
    refine
      ⟨{ id := newId,
         name := (if s.uploadName = "" then jsReplaceFirst f.name ".pdf" ""
           else s.uploadName),
         description := none, size := f.size, type := f.type,
         data := f.arrayBuffer, coverImage := coverOrNone s.uploadCover,
         addedAt := now }, ?_, ?_⟩ <;>
      simp [confirmUpload, hfile]
  · intro factory newId now s store buf ht hc hfac
    have hv : ¬ (jsTrim s.creatorTitle = "" ∨ jsTrim s.creatorContent = "") := by
      simp [ht, hc]
    refine
      ⟨{ id := newId, name := s.creatorTitle,
         description := some "Gerado internamente", size := buf.length,
         type := "application/pdf", data := buf,
         coverImage := coverOrNone s.creatorCover,
         addedAt := now }, ?_, ?_⟩ <;>
      simp [handleCreatePDF, hv, hfac]
  · intro id s store
    exact ⟨rfl, rfl⟩

/-- Concrete instance of C4: each of the three mutating handlers leaves the
cached view equal to a fresh sorted load of the post-mutation store. -/
theorem resync_after_mutation_witness :
    (∃ d, (confirmUpload "u" 1
          { documents := [], viewMode := ViewMode.library,
            creatorTitle := "", creatorContent := "", creatorCover := none,
            showUploadModal := true,
            uploadFile := some { name := "a.pdf",
                                 type := "application/pdf", bytes := [1] },
            uploadCover := none, uploadName := "A",
            isProcessing := false }
          []).2.2 =
          [Effect.storeSave d, Effect.storeList] ∧
        (confirmUpload "u" 1
          { documents := [], viewMode := ViewMode.library,
            creatorTitle := "", creatorContent := "", creatorCover := none,
            showUploadModal := true,
            uploadFile := some { name := "a.pdf",
                                 type := "application/pdf", bytes := [1] },
            uploadCover := none, uploadName := "A",
            isProcessing := false }
          []).1.documents =
          loadDocuments (confirmUpload "u" 1
            { documents := [], viewMode := ViewMode.library,
              creatorTitle := "", creatorContent := "",
              creatorCover := none, showUploadModal := true,
              uploadFile := some { name := "a.pdf",
                                   type := "application/pdf",
                                   bytes := [1] },
              uploadCover := none, uploadName := "A",
              isProcessing := false }
            []).2.1) ∧
      ∀ (id : String) (s : AppState) (store : StoreState),
        (deleteDoc true id s store).2.2 =
            [Effect.storeDelete id, Effect.storeList] ∧
          (deleteDoc true id s store).1.documents =
            loadDocuments (deleteDoc true id s store).2.1 :=
  ⟨resync_after_mutation.1 "u" 1
      { documents := [], viewMode := ViewMode.library, creatorTitle := "",
        creatorContent := "", creatorCover := none, showUploadModal := true,
        uploadFile := some { name := "a.pdf", type := "application/pdf",
                             bytes := [1] },
        uploadCover := none, uploadName := "A", isProcessing := false }
      []
      { name := "a.pdf", type := "application/pdf", bytes := [1] } rfl,
    resync_after_mutation.2.2⟩

/-! ## Factory failure handling (C5) -/

/-- Claim C5: if the Factory call raises an error during document creation,
handleCreatePDF catches it and reports to the user with an alert, no
document (not even a partial one) is saved to the store, and the
Controller state, including the cached view, is unchanged. -/
theorem factory_error_no_partial_save
    (factory : String → String → Except String Buffer) (newId : String)
    (now : Nat) (s : AppState) (store : StoreState) (msg : String)
    (herr : factory s.creatorTitle s.creatorContent = Except.error msg) :
    handleCreatePDF factory newId now s store =
        (s, store,
          if jsTrim s.creatorTitle = "" ∨ jsTrim s.creatorContent = "" then
            [Effect.alertMsg "Por favor, adicione um título e conteúdo."]
          else
            [Effect.factoryCall s.creatorTitle s.creatorContent,
             Effect.alertMsg "Erro ao criar PDF. Verifique se o texto não contém caracteres especiais não suportados."]) ∧
      (∀ d, Effect.storeSave d ∉ (handleCreatePDF factory newId now s store).2.2) ∧
      (handleCreatePDF factory newId now s store).1.documents = s.documents ∧
      (handleCreatePDF factory newId now s store).2.1 = store := by
  by_cases hv : jsTrim s.creatorTitle = "" ∨ jsTrim s.creatorContent = ""
  · refine ⟨?_, ?_, ?_, ?_⟩ <;> simp [handleCreatePDF, hv]
  · refine ⟨?_, ?_, ?_, ?_⟩ <;> simp [handleCreatePDF, hv, herr]

/-- Concrete instance of C5: a factory failing with UnsupportedContent on
title "T" and body "B" produces only the error alert; the store stays
empty and the cached view stays empty. -/
theorem factory_error_no_partial_save_witness :
    handleCreatePDF (fun _ _ => Except.error "UnsupportedContent") "c9" 2
        { documents := [], viewMode := ViewMode.create, creatorTitle := "T",
          creatorContent := "B", creatorCover := none,
          showUploadModal := false, uploadFile := none, uploadCover := none,
          uploadName := "", isProcessing := false }
        [] =
        ({ documents := [], viewMode := ViewMode.create, creatorTitle := "T",
           creatorContent := "B", creatorCover := none,
           showUploadModal := false, uploadFile := none, uploadCover := none,
           uploadName := "", isProcessing := false },
         [],
         if jsTrim "T" = "" ∨ jsTrim "B" = "" then
           [Effect.alertMsg "Por favor, adicione um título e conteúdo."]
         else
           [Effect.factoryCall "T" "B",
            Effect.alertMsg "Erro ao criar PDF. Verifique se o texto não contém caracteres especiais não suportados."]) ∧
      (∀ d, Effect.storeSave d ∉
          (handleCreatePDF (fun _ _ => Except.error "UnsupportedContent")
            "c9" 2
            { documents := [], viewMode := ViewMode.create,
              creatorTitle := "T", creatorContent := "B",
              creatorCover := none, showUploadModal := false,
              uploadFile := none, uploadCover := none, uploadName := "",
              isProcessing := false }
            []).2.2) ∧
      (handleCreatePDF (fun _ _ => Except.error "UnsupportedContent") "c9" 2
          { documents := [], viewMode := ViewMode.create,
            creatorTitle := "T", creatorContent := "B",
            creatorCover := none, showUploadModal := false,
            uploadFile := none, uploadCover := none, uploadName := "",
            isProcessing := false }
          []).1.documents = [] ∧
      (handleCreatePDF (fun _ _ => Except.error "UnsupportedContent") "c9" 2
          { documents := [], viewMode := ViewMode.create,
            creatorTitle := "T", creatorContent := "B",
            creatorCover := none, showUploadModal := false,
            uploadFile := none, uploadCover := none, uploadName := "",
            isProcessing := false }
          []).2.1 = [] :=
  factory_error_no_partial_save (fun _ _ => Except.error "UnsupportedContent")
    "c9" 2
    { documents := [], viewMode := ViewMode.create, creatorTitle := "T",
      creatorContent := "B", creatorCover := none, showUploadModal := false,
      uploadFile := none, uploadCover := none, uploadName := "",
      isProcessing := false }
    [] "UnsupportedContent" rfl

/-! ## Blank-input rejection on the create path (C8) -/

/-- Claim C8: when the whitespace-trimmed title or the whitespace-trimmed
content is empty, handleCreatePDF rejects the creation with an alert: it
calls neither the Factory nor the store, saves no document, and leaves the
state, including the cached document list, unchanged. -/
theorem create_rejects_blank_input
    (factory : String → String → Except String Buffer) (newId : String)
    (now : Nat) (s : AppState) (store : StoreState)
    (h : jsTrim s.creatorTitle = "" ∨ jsTrim s.creatorContent = "") :
    handleCreatePDF factory newId now s store =
        (s, store,
          [Effect.alertMsg "Por favor, adicione um título e conteúdo."]) ∧
      (∀ t c, Effect.factoryCall t c ∉
          (handleCreatePDF factory newId now s store).2.2) ∧
      (∀ d, Effect.storeSave d ∉
          (handleCreatePDF factory newId now s store).2.2) := by
  refine ⟨?_, ?_, ?_⟩ <;> simp [handleCreatePDF, h]

/-- Concrete instance of C8: a whitespace-only title is rejected with the
guidance alert and neither the Factory nor the store is reached. -/
theorem create_rejects_blank_input_witness :
    handleCreatePDF (fun _ _ => Except.ok [1]) "c3" 4
        { documents := [], viewMode := ViewMode.create,
          creatorTitle := "   ", creatorContent := "x",
          creatorCover := none, showUploadModal := false,
          uploadFile := none, uploadCover := none, uploadName := "",
          isProcessing := false }
        [] =
        ({ documents := [], viewMode := ViewMode.create,
           creatorTitle := "   ", creatorContent := "x",
           creatorCover := none, showUploadModal := false,
           uploadFile := none, uploadCover := none, uploadName := "",
           isProcessing := false },
         [],
         [Effect.alertMsg "Por favor, adicione um título e conteúdo."]) ∧
      (∀ t c, Effect.factoryCall t c ∉
          (handleCreatePDF (fun _ _ => Except.ok [1]) "c3" 4
            { documents := [], viewMode := ViewMode.create,
              creatorTitle := "   ", creatorContent := "x",
              creatorCover := none, showUploadModal := false,
              uploadFile := none, uploadCover := none, uploadName := "",
              isProcessing := false }
            []).2.2) ∧
      (∀ d, Effect.storeSave d ∉
          (handleCreatePDF (fun _ _ => Except.ok [1]) "c3" 4
            { documents := [], viewMode := ViewMode.create,
              creatorTitle := "   ", creatorContent := "x",
              creatorCover := none, showUploadModal := false,
              uploadFile := none, uploadCover := none, uploadName := "",
              isProcessing := false }
            []).2.2) :=
  create_rejects_blank_input (fun _ _ => Except.ok [1]) "c3" 4
    { documents := [], viewMode := ViewMode.create, creatorTitle := "   ",
      creatorContent := "x", creatorCover := none, showUploadModal := false,
      uploadFile := none, uploadCover := none, uploadName := "",
      isProcessing := false }
    [] (Or.inl (by decide))

/-! ## Upload guard when no file is chosen (C9) -/

/-- Claim C9: when no upload file has been chosen, confirmUpload returns
immediately: the store is not written, no effect is emitted, and the whole
Controller state (document cache, form fields, modal visibility,
processing flag) is unchanged. -/
theorem upload_without_file_is_noop (newId : String) (now : Nat)
    (s : AppState) (store : StoreState) (h : s.uploadFile = none) :
    confirmUpload newId now s store = (s, store, []) := by
  simp [confirmUpload, h]

/-- Concrete instance of C9: with no chosen file, confirmUpload leaves a
populated state and store exactly as they were. -/
theorem upload_without_file_is_noop_witness :
    confirmUpload "u7" 8
        { documents := [], viewMode := ViewMode.library,
          creatorTitle := "t", creatorContent := "c", creatorCover := none,
          showUploadModal := true, uploadFile := none,
          uploadCover := some "img", uploadName := "typed",
          isProcessing := false }
        [{ id := "d", name := "D", description := none, size := 1,
           type := "application/pdf", data := [7], coverImage := none,
           addedAt := 4 }] =
      ({ documents := [], viewMode := ViewMode.library,
         creatorTitle := "t", creatorContent := "c", creatorCover := none,
         showUploadModal := true, uploadFile := none,
         uploadCover := some "img", uploadName := "typed",
         isProcessing := false },
       [{ id := "d", name := "D", description := none, size := 1,
          type := "application/pdf", data := [7], coverImage := none,
          addedAt := 4 }],
       []) :=
  upload_without_file_is_noop "u7" 8
    { documents := [], viewMode := ViewMode.library, creatorTitle := "t",
      creatorContent := "c", creatorCover := none, showUploadModal := true,
      uploadFile := none, uploadCover := some "img", uploadName := "typed",
      isProcessing := false }
    [{ id := "d", name := "D", description := none, size := 1,
       type := "application/pdf", data := [7], coverImage := none,
       addedAt := 4 }]
    rfl

/-! ## Factory determinism (C6) -/

/-- Claim C6 counterexample: createPDF is not deterministic given
identical inputs up to the embedded timestamp, and it depends on external
state beyond the clock. Two invocations with the same title, the same
body and even the same clock reading, but different Math.random draws for
the trailer file identifier, produce buffers that differ outside the
timestamp field. -/
theorem createPDF_prng_dependence_counterexample :
    ¬ equalExceptCreationDate
        (createPDF (fun s _ => [s]) 10 0 "Notes" "Hello world")
        (createPDF (fun s _ => [s]) 10 1 "Notes" "Hello world") ∧
      createPDF (fun s _ => [s]) 10 0 "Notes" "Hello world" ≠
        createPDF (fun s _ => [s]) 10 1 "Notes" "Hello world" := by
  constructor
  · intro h
    exact absurd h.1 (by decide)
  · intro h
    exact absurd (congrArg PDFOutput.fileId h) (by decide)

/-- Claim C6 amended: createPDF is pure given its inputs and the two
volatile values the rendering library embeds. For every pair (title,
body), two invocations with identical inputs produce buffers equal except
for the embedded generation timestamp and the PRNG-derived trailer file
identifier, and invocations that also share the clock reading and the
PRNG draw produce identical buffers; beyond the clock and that draw there
is no dependence on external state. -/
theorem createPDF_pure_up_to_volatile_metadata
    (split : String → Nat → List String) (t1 t2 fid1 fid2 : Nat)
    (title body : String) :
    equalExceptVolatileMetadata (createPDF split t1 fid1 title body)
        (createPDF split t2 fid2 title body) ∧
      (t1 = t2 → fid1 = fid2 →
        createPDF split t1 fid1 title body =
          createPDF split t2 fid2 title body) := by
  refine ⟨⟨rfl, rfl, rfl⟩, ?_⟩
  intro h1 h2
  rw [h1, h2]

/-- Concrete instance of the amended C6: with a one-line wrap routine,
generating "Notes" at clock 10 with draw 0 and at clock 20 with draw 1
agrees outside the volatile metadata, and repeating clock 10 with draw 0
gives identical outputs. -/
theorem createPDF_pure_up_to_volatile_metadata_witness :
    equalExceptVolatileMetadata
        (createPDF (fun s _ => [s]) 10 0 "Notes" "Hello world")
        (createPDF (fun s _ => [s]) 20 1 "Notes" "Hello world") ∧
      createPDF (fun s _ => [s]) 10 0 "Notes" "Hello world" =
        createPDF (fun s _ => [s]) 10 0 "Notes" "Hello world" :=
  ⟨(createPDF_pure_up_to_volatile_metadata (fun s _ => [s]) 10 20 0 1
      "Notes" "Hello world").1,
    (createPDF_pure_up_to_volatile_metadata (fun s _ => [s]) 10 10 0 0
      "Notes" "Hello world").2 rfl rfl⟩

/-! ## Release of the temporary object URL (C7) -/

/-- Claim C7 counterexample: the object URL created by openDoc is not a
scoped resource with guaranteed release. The only release mechanism in the
trace is a single fire-and-forget 60000 ms one-shot timer, and when the
page navigates 1000 ms after opening, the program has revoked nothing: the
handle was neither released within the elapsed delay nor released on the
navigation. -/
theorem openDoc_release_counterexample :
    revokeTimers
        (openDoc
          { id := "d1", name := "N", description := none, size := 1,
            type := "application/pdf", data := [9], coverImage := none,
            addedAt := 0 }
          "blob:doc1" true) =
        [OpenEffect.scheduleRevoke 60000 "blob:doc1"] ∧
      revokedByProgram
          (openDoc
            { id := "d1", name := "N", description := none, size := 1,
              type := "application/pdf", data := [9], coverImage := none,
              addedAt := 0 }
            "blob:doc1" true) 1000 "blob:doc1" = false := by
  exact ⟨rfl, rfl⟩

/-- Claim C7 amended: openDoc schedules release of the object URL through
exactly one fire-and-forget one-shot timer of 60000 ms; the program
revokes the URL if and only if the page is still alive 60000 ms later, and
it registers no navigation-time or scope-based cleanup, so a navigation
before the delay elapses means the program never releases the handle. -/
theorem openDoc_release_via_single_timer (doc : PDFDocument) (url : String)
    (popupAllowed : Bool) (navAt : Nat) :
    revokeTimers (openDoc doc url popupAllowed) =
        [OpenEffect.scheduleRevoke 60000 url] ∧
      revokedByProgram (openDoc doc url popupAllowed) navAt url =
        decide (60000 ≤ navAt) := by
  cases popupAllowed <;>
    simp [openDoc, revokeTimers, revokedByProgram, List.any_append]

end EstantePDF
